import Mathlib

/-!
Verification of the AgentCore Travel Planner persistence core:
a shallow embedding of `src/app/jobs.py`, `src/app/ddb_tools.py`,
`src/app/config.py` (credential cache) and `src/app/agent_builder.py`
(gateway tool discovery), with theorems settling the spec claims.

Modelling conventions:
- The DynamoDB table is an association list from the primary key
  `(userId, itineraryId)` to a flat item record; all attributes of both
  job items and itinerary items live in one `Item` structure with
  `Option` fields (`none` = attribute absent).
- `put_item` with `ConditionExpression="attribute_not_exists(itineraryId)"`
  fails with `conditionalCheckFailed` exactly when an item with the same
  primary key already exists; `update_item` upserts (creates the item from
  its key when missing, per DynamoDB semantics).
- Store/network failures are injected through an explicit `fault`
  parameter (`none` = the call succeeds); a Python exception propagating
  to the caller is an `Except.error` result.
- Python strings are Lean `String`s; a Python value that is `None` or an
  empty string (both falsy, and treated identically by every truthiness
  test in this code) is modelled as `""` where only truthiness matters,
  and as `Option.none` where key absence matters (`dict.setdefault`).
- `uuid.uuid5(NAMESPACE_URL, s)` is a deterministic injective digest; it
  is modelled by the tagging function `uuid5_url`, which keeps exactly the
  properties the code relies on (determinism, distinctness from uuid4
  outputs in the scenarios considered).
- `uuid.uuid4()` is fresh randomness; each call site receives the minted
  value as an explicit parameter.
-/

set_option autoImplicit false
set_option maxRecDepth 8000

namespace AgentCore

/-- Python `s.strip()`: drop whitespace from both ends (defined on the
character list so it is kernel-computable; Lean's `Char.isWhitespace`
covers the ASCII whitespace Python strips). -/
def py_strip (s : String) : String :=
  String.mk
    (((s.data.dropWhile Char.isWhitespace).reverse.dropWhile
      Char.isWhitespace).reverse)

/-- Python `s[:n]`: the first `n` characters (list-based, kernel-computable;
agrees with `String.take`). -/
def py_take (s : String) (n : Nat) : String :=
  String.mk (s.data.take n)

/-- Python `s.startswith(p)` (list-based, kernel-computable). -/
def py_startswith (s p : String) : Bool :=
  p.data.isPrefixOf s.data

/-- Errors raised by the store client (`botocore` `ClientError` codes, plus
a catch-all for any other failure). -/
inductive DDBError where
  | conditionalCheckFailed
  | internalError
  deriving DecidableEq, Repr

/-- Primary key of the single table: `(userId, itineraryId)`. -/
abbrev Key := String × String

/-- One row of the `travel_itineraries` table. Jobs and itineraries share
the table, so all attributes appearing in `jobs.py` and `ddb_tools.py` are
fields here; `none` means the attribute is absent from the item. -/
structure Item where
  userId : String
  itineraryId : String
  type : Option String := none
  status : Option String := none
  startedAt : Option String := none
  updatedAt : Option String := none
  completedAt : Option String := none
  progress : Option (List String) := none
  finalMessage : Option String := none
  resultItineraryId : Option String := none
  meta : Option String := none
  runtimeJobId : Option String := none
  createdAt : Option String := none
  destination : Option String := none
  startDate : Option String := none
  endDate : Option String := none
  deriving DecidableEq, Repr

/-- The table state: an association list keyed by the primary key.
There is at most one entry per key (all writes go through `putItemCond`
and `updateItem`, which never duplicate a key). -/
abbrev Store := List (Key × Item)

/-- Item lookup by primary key. -/
def lookupItem : Store → Key → Option Item
  | [], _ => none
  | (k', it) :: rest, k => if k' = k then some it else lookupItem rest k

/-- Replace the item stored at `k` (leaves the store unchanged if `k` is
absent; callers only use it when `k` is present). -/
def replaceItem : Store → Key → Item → Store
  | [], _, _ => []
  | (k', it') :: rest, k, it =>
      if k' = k then (k, it) :: rest else (k', it') :: replaceItem rest k it

/-- Number of rows whose primary key is `k`. -/
def countKey (s : Store) (k : Key) : Nat :=
  (s.filter (fun e => e.1 = k)).length

/-- `table.put_item(Item=it, ConditionExpression="attribute_not_exists(itineraryId)")`:
creates the row iff no row with the same primary key exists, else raises
`ConditionalCheckFailedException`. An injected `fault` models any other
client error. -/
def putItemCond (fault : Option DDBError) (s : Store) (k : Key) (it : Item) :
    Except DDBError Store :=
  match fault with
  | some e => .error e
  | none =>
      if (lookupItem s k).isSome then .error .conditionalCheckFailed
      else .ok ((k, it) :: s)

/-- The item `update_item` starts from when the key is absent: DynamoDB
creates a new item holding only the primary key, then applies the update
expression. -/
def blankItem (k : Key) : Item :=
  { userId := k.1, itineraryId := k.2 }

/-- `table.update_item(Key=k, UpdateExpression="SET ...")` (no condition):
upserts, applying the attribute updates `f` to the existing item, or to a
fresh key-only item when the key is absent. -/
def updateItem (s : Store) (k : Key) (f : Item → Item) : Store :=
  match lookupItem s k with
  | some it => replaceItem s k (f it)
  | none => (k, f (blankItem k)) :: s

/-- Fallible wrapper for `update_item`: an injected `fault` models a
client/transport error raised by the call. -/
def updateItemE (fault : Option DDBError) (s : Store) (k : Key) (f : Item → Item) :
    Except DDBError Store :=
  match fault with
  | some e => .error e
  | none => .ok (updateItem s k f)

/-! ## `src/app/jobs.py` -/

/-- `_job_sk(request_id)`: the sort key `"job#" ++ request_id`
(`JOB_SK_PREFIX = "job#"`). -/
def job_sk (request_id : String) : String :=
  "job#" ++ request_id

/-- `create_job(user_id, request_id, meta=None, job_id=None)`.
Builds the RUNNING job item and performs the conditional create; a
`ConditionalCheckFailedException` is swallowed (idempotent create), any
other `ClientError` is re-raised. `now` is `iso_now()`. -/
def create_job (fault : Option DDBError) (now : String) (s : Store)
    (user_id request_id : String) (meta : Option String := none)
    (job_id : Option String := none) : Except DDBError Store :=
  let item : Item :=
    { userId := user_id
      itineraryId := job_sk request_id
      type := some "job"
      status := some "RUNNING"
      startedAt := some now
      updatedAt := some now
      progress := some []
      meta := meta
      runtimeJobId := job_id }
  match putItemCond fault s (user_id, job_sk request_id) item with
  | .ok s' => .ok s'
  | .error .conditionalCheckFailed => .ok s
  | .error e => .error e

/-- `append_progress(user_id, request_id, line)`. Strips the line, drops
it when empty, truncates to 600 characters plus `" ..."`, prepends the
`time.strftime("%H:%M:%S")` timestamp `ts` and two spaces, and appends it
to the `progress` list via
`SET #p = list_append(if_not_exists(#p, :empty), :line), updatedAt = :t`.
Every exception is caught and logged (best-effort), so the result is
always `.ok`.

`sanitize_line` is lines 50-54 of `jobs.py` (strip, drop empty, truncate
to 600 characters plus `" ..."`); `append_progress` is the whole
function. -/
def sanitize_line (line : String) : Option String :=
  let l := py_strip line
  if l = "" then none
  else some (if l.length > 600 then py_take l 600 ++ " ..." else l)

/-- See `sanitize_line`. -/
def append_progress (fault : Option DDBError) (ts now : String) (s : Store)
    (user_id request_id line : String) : Except DDBError Store :=
  match sanitize_line line with
  | none => .ok s
  | some l =>
      match updateItemE fault s (user_id, job_sk request_id) (fun it =>
        { it with
          progress := some (it.progress.getD [] ++ [ts ++ "  " ++ l])
          updatedAt := some now }) with
      | .ok s' => .ok s'
      | .error _ => .ok s

/-- Python truthiness of an optional string argument (`if final_message:`):
`none` and `some ""` are falsy. -/
def truthy (o : Option String) : Bool :=
  o.getD "" ≠ ""

/-- `complete_job(user_id, request_id, status, final_message=None,
itinerary_id=None)`. Unconditionally SETs `status`, `completedAt`,
`updatedAt`, plus `finalMessage` (truncated to 180000 characters) and
`resultItineraryId` when the arguments are truthy. Every exception is
caught and logged, so the result is always `.ok`. -/
def complete_job (fault : Option DDBError) (now : String) (s : Store)
    (user_id request_id status : String) (final_message : Option String := none)
    (itinerary_id : Option String := none) : Except DDBError Store :=
  match updateItemE fault s (user_id, job_sk request_id) (fun it =>
    { it with
      status := some status
      completedAt := some now
      updatedAt := some now
      finalMessage :=
        if truthy final_message then some (py_take (final_message.getD "") 180000)
        else it.finalMessage
      resultItineraryId :=
        if truthy itinerary_id then itinerary_id else it.resultItineraryId }) with
  | .ok s' => .ok s'
  | .error _ => .ok s

/-- The prefix tuple of `JobProgressHandler.emit`:
`("STATUS:", "TOOL:", "TOOL_RESULT:", "Tool #")`. -/
def emit_pfx_list : List String :=
  ["STATUS:", "TOOL:", "TOOL_RESULT:", "Tool #"]

/-- `any(msg.startswith(pfx) for pfx in (...))` in `JobProgressHandler.emit`. -/
def emit_matches (msg : String) : Bool :=
  emit_pfx_list.any (fun p => py_startswith msg p)

/-- `JobProgressHandler.emit(record)`: `msg` is the formatted record; it is
mirrored to `append_progress` iff it starts with one of the four prefixes. -/
def JobProgressHandler_emit (fault : Option DDBError) (ts now : String)
    (s : Store) (user_id request_id msg : String) : Except DDBError Store :=
  if emit_matches msg then append_progress fault ts now s user_id request_id msg
  else .ok s

/-! ## `src/app/ddb_tools.py` -/

/-- The itinerary dict passed by the caller of `save_itinerary`.
`none` = key absent from the dict (so `setdefault` fills it); `some ""`
covers both an explicit empty string and an explicit `None` value, which
every truthiness test here treats identically. `items`/`sources` carry no
behaviour relevant to the claims and are kept as opaque blobs. -/
structure Itin where
  itineraryId : Option String := none
  destination : Option String := none
  startDate : Option String := none
  endDate : Option String := none
  deriving DecidableEq, Repr

/-- Model of `str(uuid.uuid5(uuid.NAMESPACE_URL, s))`: a deterministic
injective digest of `s` (the code relies only on determinism). -/
def uuid5_url (s : String) : String :=
  "uuid5:" ++ s

/-- `_ensure_itinerary_shape(itinerary)`: `dict.setdefault` on every field;
`fresh` is the `str(uuid.uuid4())` minted at this call for the
`itineraryId` default. `setdefault` only fills absent keys, so a present
falsy value survives it. -/
def ensure_itinerary_shape (fresh : String) (it : Itin) : Itin :=
  { itineraryId := some (it.itineraryId.getD fresh)
    destination := some (it.destination.getD "")
    startDate := some (it.startDate.getD "")
    endDate := some (it.endDate.getD "") }

/-- `_stable_itinerary_id(user_id, destination, start, end, request_id)`:
`base = request_id or f"{user_id}|{destination}|{start}|{end}"`, then
`uuid5(NAMESPACE_URL, "agentcore-poc:" + base)`. -/
def stable_itinerary_id (user_id destination start end_ : String)
    (request_id : String := "") : String :=
  let base :=
    if request_id ≠ "" then request_id
    else user_id ++ "|" ++ destination ++ "|" ++ start ++ "|" ++ end_
  uuid5_url ("agentcore-poc:" ++ base)

/-- `save_itinerary(userId, itinerary, requestId="")`: shapes the dict
(`fresh` is the uuid4 minted inside `_ensure_itinerary_shape`), derives the
identity (`it.get("itineraryId") or _stable_itinerary_id(...)`), stamps
`createdAt = now`, and performs the conditional create. Returns
`"saved:<id>"`, or `"duplicate:<id>"` on `ConditionalCheckFailedException`;
any other `ClientError` propagates. -/
def save_itinerary (fault : Option DDBError) (fresh now : String) (s : Store)
    (userId : String) (itinerary : Itin) (requestId : String := "") :
    Except DDBError (Store × String) :=
  let it := ensure_itinerary_shape fresh itinerary
  let iid :=
    if it.itineraryId.getD "" ≠ "" then it.itineraryId.getD ""
    else stable_itinerary_id userId (it.destination.getD "")
      (it.startDate.getD "") (it.endDate.getD "") requestId
  let item : Item :=
    { userId := userId
      itineraryId := iid
      destination := it.destination
      startDate := it.startDate
      endDate := it.endDate
      createdAt := some now }
  match putItemCond fault s (userId, iid) item with
  | .ok s' => .ok (s', "saved:" ++ iid)
  | .error .conditionalCheckFailed => .ok (s, "duplicate:" ++ iid)
  | .error e => .error e

/-! ## `src/app/config.py` — credential cache -/

/-- The configuration values read from the environment that the token path
depends on. -/
structure Env where
  GATEWAY_ACCESS_TOKEN : String := ""
  COGNITO_TOKEN_URL : String := ""
  COGNITO_CLIENT_ID : String := ""
  COGNITO_CLIENT_SECRET : String := ""
  COGNITO_SCOPE : String := ""
  deriving DecidableEq, Repr

/-- The module-level `_token_cache = {"access_token": None, "exp": 0}`.
`access_token = ""` models Python `None`/empty (both falsy). -/
structure TokenCache where
  access_token : String := ""
  exp : Int := 0
  deriving DecidableEq, Repr

/-- Outcome of `requests.post` to the Cognito token endpoint:
`none` = transport/auth failure (any exception, incl. `raise_for_status`);
`some (tok, expiresIn)` = 2xx JSON payload, where `tok` is
`payload.get("access_token")` (`""` models a missing/`None` field) and
`expiresIn` is `int(payload.get("expires_in", 300))`. -/
abbrev NetResult := Option (String × Int)

/-- Result of a token operation: the cache afterwards, the returned string,
and the number of token-endpoint requests performed. -/
structure TokenResult where
  cache : TokenCache
  token : String
  calls : Nat
  deriving DecidableEq, Repr

/-- `_mint_cognito_token()`: returns `""` without a request when any of the
URL/client-id/secret is missing; on success stores
`(access_token, int(time.time()) + int(expires_in) - 30)` in the cache and
returns the token (`or ""`); on request failure returns `""` leaving the
cache untouched. `now` is `int(time.time())` at the store point. -/
def mint_cognito_token (env : Env) (now : Int) (net : NetResult)
    (cache : TokenCache) : TokenResult :=
  if env.COGNITO_TOKEN_URL = "" ∨ env.COGNITO_CLIENT_ID = "" ∨
      env.COGNITO_CLIENT_SECRET = "" then
    { cache := cache, token := "", calls := 0 }
  else
    match net with
    | none => { cache := cache, token := "", calls := 1 }
    | some (tok, expiresIn) =>
        { cache := { access_token := tok, exp := now + expiresIn - 30 }
          token := tok
          calls := 1 }

/-- `get_gateway_access_token()`: the static environment token wins
unconditionally; else a cached token still inside its expiry is returned
with no network call; else `_mint_cognito_token()`. `now` is
`int(time.time())`. -/
def get_gateway_access_token (env : Env) (now : Int) (net : NetResult)
    (cache : TokenCache) : TokenResult :=
  if env.GATEWAY_ACCESS_TOKEN ≠ "" then
    { cache := cache, token := env.GATEWAY_ACCESS_TOKEN, calls := 0 }
  else if cache.access_token ≠ "" ∧ now < cache.exp then
    { cache := cache, token := cache.access_token, calls := 0 }
  else mint_cognito_token env now net cache

/-- `time.strftime("%H:%M:%S")` field: a zero-padded two-digit number. -/
def two_digits (n : Nat) : String :=
  (if n < 10 then "0" else "") ++ toString n

/-- `time.strftime("%H:%M:%S")` for wall-clock `h:m:s`. -/
def strftime_hms (h m s : Nat) : String :=
  two_digits h ++ ":" ++ two_digits m ++ ":" ++ two_digits s

/-! ## `src/app/agent_builder.py` — gateway tool discovery -/

/-- One record returned by `mcp.list_tools_sync()`. `tool_name` is
`getattr(t, "tool_name", None)` restricted to its `isinstance(name, str)`
test (`none` = attribute missing or not a string); `tool_spec` contributes
the optional input schema and description (opaque blobs here);
`wrap_raises` marks a descriptor on which the loop body (attribute access
or `_wrap_mcp_tool`) raises, exercising the per-descriptor `except`. -/
structure ToolDesc where
  tool_name : Option String := none
  inputSchema : Option String := none
  description : Option String := none
  wrap_raises : Bool := false
  deriving DecidableEq, Repr

/-- The Strands wrapper produced by `_wrap_mcp_tool(tool_name, schema,
description)`: `schema or {"type": "object", "properties": {}}` and
`description or f"MCP tool proxy for {tool_name}"` (the default schema
dict is the opaque blob `"object-schema-default"`). -/
structure WrappedTool where
  name : String
  schema : String
  description : String
  deriving DecidableEq, Repr

/-- `_wrap_mcp_tool(tool_name, schema, description)` (the wrapper closure
itself proxies calls at runtime and plays no role in discovery). -/
def wrap_mcp_tool (tool_name : String) (schema : Option String)
    (description : Option String) : WrappedTool :=
  { name := tool_name
    schema := if truthy schema then schema.getD "" else "object-schema-default"
    description :=
      if truthy description then description.getD ""
      else "MCP tool proxy for " ++ tool_name }

/-- `_mcp_client_or_none()` returns a client iff: the MCP libraries
imported (`have_libs`), `GATEWAY_URL` is truthy, and
`get_gateway_access_token()` yields a truthy token. -/
def mcp_client_available (have_libs : Bool) (gateway_url : String) (env : Env)
    (now : Int) (net : NetResult) (cache : TokenCache) : Bool :=
  have_libs && gateway_url ≠ "" &&
    (get_gateway_access_token env now net cache).token ≠ ""

/-- Outcome of `mcp.list_tools_sync()` inside the `with client` block:
`.error` = any exception from connecting or listing; `.ok ts` = the
returned records (`tools or []` maps Python `None` to `[]`). -/
abbrev ListToolsResult := Except Unit (List ToolDesc)

/-- The wrapping loop of `discover_gateway_tools`: skips a record whose
`tool_name` is not a string (`continue`) and one whose body raises
(per-descriptor `except`), wraps the rest in order. -/
def wrap_loop : List ToolDesc → List WrappedTool
  | [] => []
  | t :: rest =>
      match t.tool_name with
      | none => wrap_loop rest
      | some name =>
          if t.wrap_raises then wrap_loop rest
          else wrap_mcp_tool name t.inputSchema t.description :: wrap_loop rest

/-- `discover_gateway_tools()`: `[]` when no client can be built or when
listing raises; otherwise the wrapped well-formed descriptors. -/
def discover_gateway_tools (have_libs : Bool) (gateway_url : String)
    (env : Env) (now : Int) (net : NetResult) (cache : TokenCache)
    (listing : ListToolsResult) : List WrappedTool :=
  if ¬ mcp_client_available have_libs gateway_url env now net cache then []
  else
    match listing with
    | .error _ => []
    | .ok tools => wrap_loop tools

/-! ## Observations and store lemmas -/

/-- The caller's view of the store after a call: the new store on success,
the unchanged prior store when the call raised. -/
def runStore (fallback : Store) (r : Except DDBError Store) : Store :=
  match r with
  | .ok s => s
  | .error _ => fallback

/-- The `status` attribute a status poll reads at key `k`. -/
def statusAt (s : Store) (k : Key) : Option String :=
  (lookupItem s k).bind Item.status

/-- The `finalMessage` attribute at key `k`. -/
def finalMessageAt (s : Store) (k : Key) : Option String :=
  (lookupItem s k).bind Item.finalMessage

/-- The `progress` list a status poll reads at key `k` (absent item or
absent attribute read as the empty list, matching `if_not_exists`). -/
def progressAt (s : Store) (k : Key) : List String :=
  match lookupItem s k with
  | some it => it.progress.getD []
  | none => []

/-- The string `save_itinerary` returned to the agent (`""` if it raised). -/
def saveMsg (r : Except DDBError (Store × String)) : String :=
  match r with
  | .ok (_, msg) => msg
  | .error _ => ""

/-- The store after a `save_itinerary` call (unchanged if it raised). -/
def saveStore (fallback : Store) (r : Except DDBError (Store × String)) : Store :=
  match r with
  | .ok (s, _) => s
  | .error _ => fallback

theorem lookupItem_replaceItem_self (s : Store) (k : Key) (it : Item)
    (h : (lookupItem s k).isSome) :
    lookupItem (replaceItem s k it) k = some it := by
  induction s with
  | nil => simp [lookupItem] at h
  | cons e rest ih =>
      obtain ⟨k', it'⟩ := e
      by_cases hk : k' = k
      · subst hk
        simp [replaceItem, lookupItem]
      · simp only [lookupItem, if_neg hk] at h
        simp [replaceItem, lookupItem, if_neg hk, ih h]

theorem lookupItem_updateItem_self (s : Store) (k : Key) (f : Item → Item) :
    lookupItem (updateItem s k f) k
      = some (f ((lookupItem s k).getD (blankItem k))) := by
  unfold updateItem
  cases h : lookupItem s k with
  | none => simp [lookupItem]
  | some it =>
      rw [lookupItem_replaceItem_self s k (f it) (by simp [h])]
      simp

theorem countKey_eq_zero_of_lookup_none (s : Store) (k : Key)
    (h : lookupItem s k = none) : countKey s k = 0 := by
  induction s with
  | nil => rfl
  | cons e rest ih =>
      obtain ⟨k', it'⟩ := e
      by_cases hk : k' = k
      · simp [lookupItem, hk] at h
      · simp only [lookupItem, if_neg hk] at h
        simpa [countKey, List.filter, hk] using ih h

theorem countKey_cons_self (s : Store) (k : Key) (it : Item) :
    countKey ((k, it) :: s) k = countKey s k + 1 := by
  simp [countKey, List.filter]

theorem progressAt_updateItem (s : Store) (k : Key) (f : Item → Item) :
    progressAt (updateItem s k f) k
      = (f ((lookupItem s k).getD (blankItem k))).progress.getD [] := by
  simp [progressAt, lookupItem_updateItem_self]

theorem getD_progress_eq_progressAt (s : Store) (k : Key) :
    ((lookupItem s k).getD (blankItem k)).progress.getD [] = progressAt s k := by
  cases h : lookupItem s k <;> simp [progressAt, h, blankItem]

theorem two_digits_length (n : Nat) (h : n < 100) :
    (two_digits n).length = 2 := by
  interval_cases n <;> decide

theorem strftime_hms_length (h m sec : Nat) (hh : h < 24) (hm : m < 60)
    (hs : sec < 60) : (strftime_hms h m sec).length = 8 := by
  simp [strftime_hms, two_digits_length h (by omega),
    two_digits_length m (by omega), two_digits_length sec (by omega)]
  rfl

theorem py_take_length (s : String) (n : Nat) :
    (py_take s n).length = min n s.length := by
  simp [py_take, String.length_mk, List.length_take]

theorem wrap_loop_eq_filter_map (tools : List ToolDesc) :
    wrap_loop tools
      = (tools.filter (fun t => t.tool_name.isSome && !t.wrap_raises)).map
          (fun t => wrap_mcp_tool (t.tool_name.getD "") t.inputSchema
            t.description) := by
  induction tools with
  | nil => rfl
  | cons t rest ih =>
      cases hn : t.tool_name with
      | none => simp [wrap_loop, hn, List.filter, ih]
      | some name =>
          by_cases hw : t.wrap_raises <;>
            simp [wrap_loop, hn, hw, List.filter, ih]

/-! ## Claims -/

/-- C6: for every input and every injected store failure, `append_progress`
and `complete_job` return without raising (their bodies are wrapped in a
catch-all `except` that only logs), so the calling unit of work always
continues regardless of the telemetry outcome. -/
theorem telemetry_never_raises :
    ∀ (fault : Option DDBError) (ts now now2 : String) (s : Store)
      (u r line status : String) (fm iid : Option String),
      (append_progress fault ts now s u r line).isOk = true ∧
      (complete_job fault now2 s u r status fm iid).isOk = true := by
  intro fault ts now now2 s u r line status fm iid
  constructor
  · unfold append_progress
    cases sanitize_line line with
    | none => rfl
    | some l => cases fault <;> simp [updateItemE, Except.isOk, Except.toBool]
  · unfold complete_job
    cases fault <;> simp [updateItemE, Except.isOk, Except.toBool]

/-- C3: for every `(ownerId, requestId)` with no prior job record, two
sequential `create_job` calls both return without exception and leave
exactly one record, with status `RUNNING`; and `create_job` raises iff
the store fails with an error other than the conditional-create
`ConditionalCheckFailedException`, which is swallowed as success. -/
theorem create_job_idempotent :
    (∀ (s : Store) (now1 now2 u r : String) (meta job_id : Option String),
      lookupItem s (u, job_sk r) = none →
      ∃ s1 : Store,
        create_job none now1 s u r meta job_id = .ok s1 ∧
        create_job none now2 s1 u r meta job_id = .ok s1 ∧
        countKey s1 (u, job_sk r) = 1 ∧
        statusAt s1 (u, job_sk r) = some "RUNNING")
    ∧ (∀ (fault : Option DDBError) (now u r : String) (s : Store)
        (meta job_id : Option String),
        (create_job fault now s u r meta job_id).isOk = false ↔
          fault = some .internalError) := by
  constructor
  · intro s now1 now2 u r meta job_id h
    refine ⟨((u, job_sk r),
      { userId := u, itineraryId := job_sk r, type := some "job",
        status := some "RUNNING", startedAt := some now1,
        updatedAt := some now1, progress := some [], meta := meta,
        runtimeJobId := job_id }) :: s, ?_, ?_, ?_, ?_⟩
    · simp [create_job, putItemCond, h]
    · simp [create_job, putItemCond, lookupItem]
    · rw [countKey_cons_self, countKey_eq_zero_of_lookup_none s _ h]
    · simp [statusAt, lookupItem]
  · intro fault now u r s meta job_id
    cases fault with
    | none =>
        unfold create_job putItemCond
        by_cases h : (lookupItem s (u, job_sk r)).isSome <;>
          simp [h, Except.isOk, Except.toBool]
    | some e =>
        cases e <;> simp [create_job, putItemCond, Except.isOk, Except.toBool]

/-- C3 witness: concrete double-create from the empty store, and the
error-iff at an injected internal store error. -/
theorem create_job_idempotent_witness :
    (∃ s1 : Store,
      create_job none "t1" [] "u" "r" none none = .ok s1 ∧
      create_job none "t2" s1 "u" "r" none none = .ok s1 ∧
      countKey s1 ("u", job_sk "r") = 1 ∧
      statusAt s1 ("u", job_sk "r") = some "RUNNING")
    ∧ ((create_job (some .internalError) "t1" [] "u" "r" none none).isOk
          = false
        ↔ some DDBError.internalError = some DDBError.internalError) :=
  ⟨create_job_idempotent.1 [] "t1" "t2" "u" "r" none none rfl,
   create_job_idempotent.2 (some .internalError) "t1" "u" "r" [] none none⟩

/-- C2 counterexample: `complete_job` has no conditional guard, so after a
job is terminal (`SUCCEEDED`, message `"first"`), a second completion call
with a different status and message overwrites both: the poll reads
`FAILED` / `"second"`, not the first recorded terminal state. -/
theorem complete_job_overwrites_terminal_cex :
    statusAt (runStore []
        (complete_job none "t1" [] "u" "r" "SUCCEEDED" (some "first") none))
      ("u", job_sk "r") = some "SUCCEEDED"
    ∧ statusAt (runStore []
        (complete_job none "t2"
          (runStore []
            (complete_job none "t1" [] "u" "r" "SUCCEEDED" (some "first")
              none))
          "u" "r" "FAILED" (some "second") none))
      ("u", job_sk "r") = some "FAILED"
    ∧ finalMessageAt (runStore []
        (complete_job none "t2"
          (runStore []
            (complete_job none "t1" [] "u" "r" "SUCCEEDED" (some "first")
              none))
          "u" "r" "FAILED" (some "second") none))
      ("u", job_sk "r") = some "second" := by
  decide

/-- C2 amended: `complete_job` performs a plain unconditional update (no
conditional expression requiring `status = RUNNING`), so terminal states
are last-write-wins: the first completion records its status, and any
subsequent completion overwrites it with the new status. -/
theorem complete_job_last_write_wins :
    ∀ (s : Store) (now1 now2 u r st1 st2 : String) (m1 m2 i1 i2 : Option String),
      statusAt (runStore s (complete_job none now1 s u r st1 m1 i1))
          (u, job_sk r) = some st1
      ∧ statusAt
          (runStore (runStore s (complete_job none now1 s u r st1 m1 i1))
            (complete_job none now2
              (runStore s (complete_job none now1 s u r st1 m1 i1))
              u r st2 m2 i2))
          (u, job_sk r) = some st2 := by
  intro s now1 now2 u r st1 st2 m1 m2 i1 i2
  constructor <;>
    simp [complete_job, updateItemE, runStore, statusAt,
      lookupItem_updateItem_self]

/-- C7 counterexample: the formatted line `"Tool #1: web_search"` starts
with none of `STATUS:`, `TOOL:`, `TOOL_RESULT:`, yet
`JobProgressHandler.emit` forwards it to the progress-append path (the
code's prefix tuple also contains `"Tool #"`). -/
theorem emit_forwards_tool_hash_cex :
    py_startswith "Tool #1: web_search" "STATUS:" = false
    ∧ py_startswith "Tool #1: web_search" "TOOL:" = false
    ∧ py_startswith "Tool #1: web_search" "TOOL_RESULT:" = false
    ∧ emit_matches "Tool #1: web_search" = true
    ∧ progressAt (runStore []
        (JobProgressHandler_emit none "12:00:00" "t" [] "u" "r"
          "Tool #1: web_search"))
      ("u", job_sk "r") = ["12:00:00  Tool #1: web_search"] := by
  decide

/-- C7 amended: `JobProgressHandler.emit` forwards a formatted line to
`append_progress` iff it starts with one of exactly `STATUS:`, `TOOL:`,
`TOOL_RESULT:`, or `Tool #`; a line matching none of these four never
reaches the append path (the store is untouched). -/
theorem emit_prefix_filter :
    ∀ (fault : Option DDBError) (ts now : String) (s : Store)
      (u r msg : String),
      (emit_matches msg = true ↔
        (py_startswith msg "STATUS:" || py_startswith msg "TOOL:" ||
         py_startswith msg "TOOL_RESULT:" || py_startswith msg "Tool #")
          = true)
      ∧ (emit_matches msg = false →
          JobProgressHandler_emit fault ts now s u r msg = .ok s)
      ∧ (emit_matches msg = true →
          JobProgressHandler_emit fault ts now s u r msg
            = append_progress fault ts now s u r msg) := by
  intro fault ts now s u r msg
  refine ⟨?_, ?_, ?_⟩
  · simp [emit_matches, emit_pfx_list, List.any]
    tauto
  · intro h
    simp [JobProgressHandler_emit, h]
  · intro h
    simp [JobProgressHandler_emit, h]

/-- C7 amended witness: a plain line is dropped (store untouched), a
`STATUS:` line is handed to `append_progress`. -/
theorem emit_prefix_filter_witness :
    JobProgressHandler_emit none "12:00:00" "t" [] "u" "r" "hello" = .ok []
    ∧ JobProgressHandler_emit none "12:00:00" "t" [] "u" "r" "STATUS: ok"
        = append_progress none "12:00:00" "t" [] "u" "r" "STATUS: ok" :=
  ⟨(emit_prefix_filter none "12:00:00" "t" [] "u" "r" "hello").2.1
      (by decide),
   (emit_prefix_filter none "12:00:00" "t" [] "u" "r" "STATUS: ok").2.2
      (by decide)⟩

/-- C1 (code defect): with no client-supplied `itineraryId` and the same
`(ownerId, requestId) = ("u1", "req-1")`, `_ensure_itinerary_shape`
injects a fresh `uuid4` (here `"uuidA"` then `"uuidB"`) before the
stable-id fallback can run, so the two calls derive different identities,
both return `saved:` (the second is not `duplicate:`), and neither
identity is the stable deterministic hash of the request. -/
theorem save_itinerary_fresh_uuid_defeats_idempotency :
    saveMsg (save_itinerary none "uuidA" "t1" [] "u1" {} "req-1")
      = "saved:uuidA"
    ∧ saveMsg (save_itinerary none "uuidB" "t2"
        (saveStore [] (save_itinerary none "uuidA" "t1" [] "u1" {} "req-1"))
        "u1" {} "req-1")
      = "saved:uuidB"
    ∧ ("uuidA" : String) ≠ "uuidB"
    ∧ "uuidA" ≠ stable_itinerary_id "u1" "" "" "" "req-1" := by
  decide

/-- C5: `append_progress` strips the line; an empty stripped line is
dropped (the call is a no-op on the store); a stripped line over 600
characters is appended truncated to its first 600 characters plus the
`" ..."` marker; otherwise the stripped line is appended with its content
unchanged. -/
theorem append_progress_sanitizes :
    ∀ (ts now : String) (s : Store) (u r line : String),
      (py_strip line = "" → append_progress none ts now s u r line = .ok s)
      ∧ (py_strip line ≠ "" → (py_strip line).length ≤ 600 →
          progressAt (runStore s (append_progress none ts now s u r line))
              (u, job_sk r)
            = progressAt s (u, job_sk r) ++ [ts ++ "  " ++ py_strip line])
      ∧ (py_strip line ≠ "" → (py_strip line).length > 600 →
          progressAt (runStore s (append_progress none ts now s u r line))
              (u, job_sk r)
            = progressAt s (u, job_sk r)
              ++ [ts ++ "  " ++ (py_take (py_strip line) 600 ++ " ...")]) := by
  intro ts now s u r line
  refine ⟨?_, ?_, ?_⟩
  · intro h
    simp [append_progress, sanitize_line, h]
  · intro h1 h2
    have hsan : sanitize_line line = some (py_strip line) := by
      simp [sanitize_line, h1, Nat.not_lt.mpr h2]
    simp [append_progress, hsan, updateItemE, runStore,
      progressAt_updateItem, getD_progress_eq_progressAt]
  · intro h1 h2
    have hsan : sanitize_line line
        = some (py_take (py_strip line) 600 ++ " ...") := by
      simp [sanitize_line, h1, h2]
    simp [append_progress, hsan, updateItemE, runStore,
      progressAt_updateItem, getD_progress_eq_progressAt]

/-- C5 witness: a whitespace-only line is dropped; `" hi "` is appended
stripped and unchanged; a 601-character line is appended truncated with
the marker. -/
theorem append_progress_sanitizes_witness :
    (append_progress none "12:00:00" "t" [] "u" "r" "   " = .ok [])
    ∧ (progressAt (runStore []
          (append_progress none "12:00:00" "t" [] "u" "r" " hi "))
          ("u", job_sk "r")
        = progressAt [] ("u", job_sk "r")
          ++ ["12:00:00" ++ "  " ++ py_strip " hi "])
    ∧ (progressAt (runStore []
          (append_progress none "12:00:00" "t" [] "u" "r"
            (String.mk (List.replicate 601 'a'))))
          ("u", job_sk "r")
        = progressAt [] ("u", job_sk "r")
          ++ ["12:00:00" ++ "  "
              ++ (py_take (py_strip (String.mk (List.replicate 601 'a'))) 600
                  ++ " ...")]) :=
  ⟨(append_progress_sanitizes "12:00:00" "t" [] "u" "r" "   ").1 (by decide),
   (append_progress_sanitizes "12:00:00" "t" [] "u" "r" " hi ").2.1
      (by decide) (by decide),
   (append_progress_sanitizes "12:00:00" "t" [] "u" "r"
      (String.mk (List.replicate 601 'a'))).2.2 (by decide) (by decide)⟩

/-- C9: every stored progress element is the sanitized line prefixed with
the `%H:%M:%S` wall-clock time and two spaces (10 characters), so the
stored element is never the sanitized line verbatim, and for an
over-length line the stored element has length 614 = 600 + 4 (marker)
+ 10 (timestamp prefix), exceeding the 600 cap. -/
theorem append_progress_timestamp_prefix :
    ∀ (h m sec : Nat) (now : String) (s : Store) (u r line l : String),
      h < 24 → m < 60 → sec < 60 →
      sanitize_line line = some l →
      (progressAt (runStore s
          (append_progress none (strftime_hms h m sec) now s u r line))
          (u, job_sk r)
        = progressAt s (u, job_sk r) ++ [strftime_hms h m sec ++ "  " ++ l])
      ∧ strftime_hms h m sec ++ "  " ++ l ≠ l
      ∧ (strftime_hms h m sec ++ "  ").length = 10
      ∧ ((py_strip line).length > 600 →
          (strftime_hms h m sec ++ "  " ++ l).length = 614) := by
  intro h m sec now s u r line l hh hm hs hsan
  have hlen8 := strftime_hms_length h m sec hh hm hs
  refine ⟨?_, ?_, ?_, ?_⟩
  · simp [append_progress, hsan, updateItemE, runStore,
      progressAt_updateItem, getD_progress_eq_progressAt]
  · intro heq
    have hle := congrArg String.length heq
    simp [String.length_append, hlen8] at hle
  · simp [String.length_append, hlen8]
    rfl
  · intro hbig
    have hne : py_strip line ≠ "" := by
      intro h0
      rw [h0] at hbig
      simp at hbig
    have hl : l = py_take (py_strip line) 600 ++ " ..." := by
      have := hsan
      simp [sanitize_line, hne, hbig] at this
      exact this.symm
    have e2 : ("  " : String).length = 2 := rfl
    have e4 : (" ..." : String).length = 4 := rfl
    rw [hl]
    simp [String.length_append, hlen8, py_take_length, e2, e4]
    omega

/-- C9 witness: an over-length line stored at `12:00:00` yields the
10-character-prefixed, 614-character element. -/
theorem append_progress_timestamp_prefix_witness :
    (progressAt (runStore []
        (append_progress none (strftime_hms 12 0 0) "t" [] "u" "r"
          (String.mk (List.replicate 601 'a'))))
        ("u", job_sk "r")
      = progressAt [] ("u", job_sk "r")
        ++ [strftime_hms 12 0 0 ++ "  "
            ++ (py_take (py_strip (String.mk (List.replicate 601 'a'))) 600
                ++ " ...")])
    ∧ strftime_hms 12 0 0 ++ "  "
        ++ (py_take (py_strip (String.mk (List.replicate 601 'a'))) 600
            ++ " ...")
      ≠ py_take (py_strip (String.mk (List.replicate 601 'a'))) 600 ++ " ..."
    ∧ (strftime_hms 12 0 0 ++ "  ").length = 10
    ∧ ((py_strip (String.mk (List.replicate 601 'a'))).length > 600 →
        (strftime_hms 12 0 0 ++ "  "
          ++ (py_take (py_strip (String.mk (List.replicate 601 'a'))) 600
              ++ " ...")).length = 614) :=
  append_progress_timestamp_prefix 12 0 0 "t" [] "u" "r"
    (String.mk (List.replicate 601 'a'))
    (py_take (py_strip (String.mk (List.replicate 601 'a'))) 600 ++ " ...")
    (by decide) (by decide) (by decide) (by decide)

/-- C10: `append_progress` has no existence precondition: on a key with no
record, a successful append upserts a record carrying only the key, the
one-element progress list and `updatedAt` — no `status`, `startedAt` or
`type` — so a status poll observes a record outside the
RUNNING/SUCCEEDED/FAILED state machine (its status reads as absent). -/
theorem append_progress_upserts_bare_record :
    ∀ (ts now : String) (s : Store) (u r line l : String),
      lookupItem s (u, job_sk r) = none →
      sanitize_line line = some l →
      lookupItem (runStore s (append_progress none ts now s u r line))
          (u, job_sk r)
        = some { userId := u, itineraryId := job_sk r,
                 updatedAt := some now,
                 progress := some [ts ++ "  " ++ l] }
      ∧ statusAt (runStore s (append_progress none ts now s u r line))
          (u, job_sk r) = none := by
  intro ts now s u r line l hnone hsan
  have hlook :
      lookupItem (runStore s (append_progress none ts now s u r line))
          (u, job_sk r)
        = some { userId := u, itineraryId := job_sk r,
                 updatedAt := some now,
                 progress := some [ts ++ "  " ++ l] } := by
    simp [append_progress, hsan, updateItemE, runStore,
      lookupItem_updateItem_self, hnone, blankItem]
  exact ⟨hlook, by simp [statusAt, hlook]⟩

/-- C10 witness: appending `" hi "` for a job that was never created
yields exactly the bare record. -/
theorem append_progress_upserts_bare_record_witness :
    lookupItem (runStore []
        (append_progress none "12:00:00" "t" [] "u" "r" " hi "))
        ("u", job_sk "r")
      = some { userId := "u", itineraryId := job_sk "r",
               updatedAt := some "t",
               progress := some ["12:00:00" ++ "  " ++ "hi"] }
    ∧ statusAt (runStore []
        (append_progress none "12:00:00" "t" [] "u" "r" " hi "))
        ("u", job_sk "r") = none :=
  append_progress_upserts_bare_record "12:00:00" "t" [] "u" "r" " hi " "hi"
    (by decide) (by decide)

/-- C4: `get_gateway_access_token` returns the static environment token
unconditionally when present; else a cached token before its expiry is
returned with no network call; else (with the token endpoint configured)
exactly one mint request is made, `(token, now + expires_in - 30)` is
stored, and the token returned; in particular after a mint returning
`expires_in = 300` at `t1`, a second call strictly within 270 seconds
returns the identical cached token with no network call. -/
theorem get_gateway_access_token_cache :
    (∀ (env : Env) (now : Int) (net : NetResult) (cache : TokenCache),
      env.GATEWAY_ACCESS_TOKEN ≠ "" →
      get_gateway_access_token env now net cache
        = { cache := cache, token := env.GATEWAY_ACCESS_TOKEN, calls := 0 })
    ∧ (∀ (env : Env) (now : Int) (net : NetResult) (cache : TokenCache),
      env.GATEWAY_ACCESS_TOKEN = "" →
      cache.access_token ≠ "" → now < cache.exp →
      get_gateway_access_token env now net cache
        = { cache := cache, token := cache.access_token, calls := 0 })
    ∧ (∀ (env : Env) (now : Int) (tok : String) (expiresIn : Int)
        (cache : TokenCache),
      env.GATEWAY_ACCESS_TOKEN = "" →
      (cache.access_token = "" ∨ cache.exp ≤ now) →
      env.COGNITO_TOKEN_URL ≠ "" → env.COGNITO_CLIENT_ID ≠ "" →
      env.COGNITO_CLIENT_SECRET ≠ "" →
      get_gateway_access_token env now (some (tok, expiresIn)) cache
        = { cache := { access_token := tok, exp := now + expiresIn - 30 },
            token := tok, calls := 1 })
    ∧ (∀ (env : Env) (t1 t2 : Int) (tok : String) (cache : TokenCache)
        (net2 : NetResult),
      env.GATEWAY_ACCESS_TOKEN = "" →
      (cache.access_token = "" ∨ cache.exp ≤ t1) →
      env.COGNITO_TOKEN_URL ≠ "" → env.COGNITO_CLIENT_ID ≠ "" →
      env.COGNITO_CLIENT_SECRET ≠ "" →
      tok ≠ "" → t2 - t1 < 270 →
      get_gateway_access_token env t2 net2
          (get_gateway_access_token env t1 (some (tok, 300)) cache).cache
        = { cache := { access_token := tok, exp := t1 + 300 - 30 },
            token := tok, calls := 0 }) := by
  have hstatic : ∀ (env : Env) (now : Int) (net : NetResult)
      (cache : TokenCache), env.GATEWAY_ACCESS_TOKEN ≠ "" →
      get_gateway_access_token env now net cache
        = { cache := cache, token := env.GATEWAY_ACCESS_TOKEN, calls := 0 } := by
    intro env now net cache h
    simp [get_gateway_access_token, h]
  have hfresh : ∀ (env : Env) (now : Int) (tok : String) (expiresIn : Int)
      (cache : TokenCache),
      env.GATEWAY_ACCESS_TOKEN = "" →
      (cache.access_token = "" ∨ cache.exp ≤ now) →
      env.COGNITO_TOKEN_URL ≠ "" → env.COGNITO_CLIENT_ID ≠ "" →
      env.COGNITO_CLIENT_SECRET ≠ "" →
      get_gateway_access_token env now (some (tok, expiresIn)) cache
        = { cache := { access_token := tok, exp := now + expiresIn - 30 },
            token := tok, calls := 1 } := by
    intro env now tok expiresIn cache h0 hstale hu hi hs
    have hnot : ¬ (cache.access_token ≠ "" ∧ now < cache.exp) := by
      rcases hstale with h | h
      · exact fun hc => hc.1 h
      · exact fun hc => absurd hc.2 (by omega)
    simp [get_gateway_access_token, h0, hnot, mint_cognito_token, hu, hi, hs]
  refine ⟨hstatic, ?_, hfresh, ?_⟩
  · intro env now net cache h0 hc hexp
    simp [get_gateway_access_token, h0, hc, hexp]
  · intro env t1 t2 tok cache net2 h0 hstale hu hi hs htok hwithin
    rw [hfresh env t1 tok 300 cache h0 hstale hu hi hs]
    simp only [get_gateway_access_token, h0]
    have hcached : tok ≠ "" ∧ t2 < t1 + 300 - 30 := ⟨htok, by omega⟩
    simp [hcached, htok, show t2 < t1 + 300 - 30 by omega]

/-- C4 witness: static token short-circuit; a cache hit at `t = 100`
against expiry `270`; a fresh mint at `t1 = 1000`; and a second call at
`t2 = 1269` (269 s later) returning the cached token with zero calls. -/
theorem get_gateway_access_token_cache_witness :
    (get_gateway_access_token { GATEWAY_ACCESS_TOKEN := "static" } 0 none {}
        = { cache := {}, token := "static", calls := 0 })
    ∧ (get_gateway_access_token
          { COGNITO_TOKEN_URL := "u", COGNITO_CLIENT_ID := "i",
            COGNITO_CLIENT_SECRET := "s" } 100 none
          { access_token := "cached", exp := 270 }
        = { cache := { access_token := "cached", exp := 270 },
            token := "cached", calls := 0 })
    ∧ (get_gateway_access_token
          { COGNITO_TOKEN_URL := "u", COGNITO_CLIENT_ID := "i",
            COGNITO_CLIENT_SECRET := "s" } 1000 (some ("tok", 300)) {}
        = { cache := { access_token := "tok", exp := 1000 + 300 - 30 },
            token := "tok", calls := 1 })
    ∧ (get_gateway_access_token
          { COGNITO_TOKEN_URL := "u", COGNITO_CLIENT_ID := "i",
            COGNITO_CLIENT_SECRET := "s" } 1269 none
          (get_gateway_access_token
            { COGNITO_TOKEN_URL := "u", COGNITO_CLIENT_ID := "i",
              COGNITO_CLIENT_SECRET := "s" } 1000 (some ("tok", 300))
            {}).cache
        = { cache := { access_token := "tok", exp := 1000 + 300 - 30 },
            token := "tok", calls := 0 }) :=
  ⟨get_gateway_access_token_cache.1 { GATEWAY_ACCESS_TOKEN := "static" } 0
      none {} (by decide),
   get_gateway_access_token_cache.2.1
      { COGNITO_TOKEN_URL := "u", COGNITO_CLIENT_ID := "i",
        COGNITO_CLIENT_SECRET := "s" } 100 none
      { access_token := "cached", exp := 270 } (by decide) (by decide)
      (by decide),
   get_gateway_access_token_cache.2.2.1
      { COGNITO_TOKEN_URL := "u", COGNITO_CLIENT_ID := "i",
        COGNITO_CLIENT_SECRET := "s" } 1000 "tok" 300 {} (by decide)
      (Or.inl (by decide)) (by decide) (by decide) (by decide),
   get_gateway_access_token_cache.2.2.2
      { COGNITO_TOKEN_URL := "u", COGNITO_CLIENT_ID := "i",
        COGNITO_CLIENT_SECRET := "s" } 1000 1269 "tok" {} none (by decide)
      (Or.inl (by decide)) (by decide) (by decide) (by decide) (by decide)
      (by decide)⟩

/-- C8: tool discovery is total (it returns a list, never raising):
a credential-less token path makes the client unavailable; an unavailable
client or a failed listing yields the empty list; and on a successful
listing every descriptor with a string name whose wrapping does not raise
is wrapped, in order, while the rest are skipped. -/
theorem discover_gateway_tools_robust :
    (∀ (have_libs : Bool) (gateway_url : String) (env : Env) (now : Int)
      (net : NetResult) (cache : TokenCache),
      (get_gateway_access_token env now net cache).token = "" →
      mcp_client_available have_libs gateway_url env now net cache = false)
    ∧ (∀ (have_libs : Bool) (gateway_url : String) (env : Env) (now : Int)
      (net : NetResult) (cache : TokenCache) (listing : ListToolsResult),
      mcp_client_available have_libs gateway_url env now net cache = false →
      discover_gateway_tools have_libs gateway_url env now net cache listing
        = [])
    ∧ (∀ (have_libs : Bool) (gateway_url : String) (env : Env) (now : Int)
      (net : NetResult) (cache : TokenCache) (e : Unit),
      discover_gateway_tools have_libs gateway_url env now net cache
        (.error e) = [])
    ∧ (∀ (have_libs : Bool) (gateway_url : String) (env : Env) (now : Int)
      (net : NetResult) (cache : TokenCache) (tools : List ToolDesc),
      mcp_client_available have_libs gateway_url env now net cache = true →
      discover_gateway_tools have_libs gateway_url env now net cache
          (.ok tools)
        = (tools.filter (fun t => t.tool_name.isSome && !t.wrap_raises)).map
            (fun t => wrap_mcp_tool (t.tool_name.getD "") t.inputSchema
              t.description)) := by
  refine ⟨?_, ?_, ?_, ?_⟩
  · intro have_libs gateway_url env now net cache h
    simp [mcp_client_available, h]
  · intro have_libs gateway_url env now net cache listing h
    simp [discover_gateway_tools, h]
  · intro have_libs gateway_url env now net cache e
    by_cases h : mcp_client_available have_libs gateway_url env now net cache
      <;> simp [discover_gateway_tools, h]
  · intro have_libs gateway_url env now net cache tools h
    simp [discover_gateway_tools, h, wrap_loop_eq_filter_map]

/-- C8 witness: with no credential the client is unavailable and discovery
is empty; a failed listing is empty; and a listing with one unnamed, one
raising, and two good descriptors wraps exactly the two good ones. -/
theorem discover_gateway_tools_robust_witness :
    (mcp_client_available true "https://gw" {} 0 none {} = false)
    ∧ (discover_gateway_tools true "https://gw" {} 0 none {} (.ok
        [{ tool_name := some "a" }]) = [])
    ∧ (discover_gateway_tools true "https://gw"
        { GATEWAY_ACCESS_TOKEN := "tok" } 0 none {} (.error ()) = [])
    ∧ (discover_gateway_tools true "https://gw"
        { GATEWAY_ACCESS_TOKEN := "tok" } 0 none {} (.ok
          [{ tool_name := none },
           { tool_name := some "bad", wrap_raises := true },
           { tool_name := some "search_flights" },
           { tool_name := some "book_hotel", description := some "books" }])
        = (([{ tool_name := some "search_flights" },
             { tool_name := some "book_hotel",
               description := some "books" }] : List ToolDesc).map
            (fun t => wrap_mcp_tool (t.tool_name.getD "") t.inputSchema
              t.description))) :=
  ⟨discover_gateway_tools_robust.1 true "https://gw" {} 0 none {}
      (by decide),
   discover_gateway_tools_robust.2.1 true "https://gw" {} 0 none {}
      (.ok [{ tool_name := some "a" }])
      (discover_gateway_tools_robust.1 true "https://gw" {} 0 none {}
        (by decide)),
   discover_gateway_tools_robust.2.2.1 true "https://gw"
      { GATEWAY_ACCESS_TOKEN := "tok" } 0 none {} (),
   by
    have := discover_gateway_tools_robust.2.2.2 true "https://gw"
      { GATEWAY_ACCESS_TOKEN := "tok" } 0 none {}
      [{ tool_name := none },
       { tool_name := some "bad", wrap_raises := true },
       { tool_name := some "search_flights" },
       { tool_name := some "book_hotel", description := some "books" }]
      (by decide)
    rw [this]
    rfl⟩

end AgentCore
